import Mathlib

set_option maxRecDepth 8192
set_option maxHeartbeats 1600000

/-!
Verification development for the apple-mcp request-dispatch and
result-aggregation layer.

Shallow embedding of:
- the per-tool argument validators (`isContactsArgs`, `isNotesArgs`,
  `isMessagesArgs`, `isRemindersArgs`, `isCalendarArgs`) from the server
  entry point;
- the Reminders backing layer (`checkRemindersAccess`, `getAllReminders`,
  `findReminders`, `createReminder`, `completeReminder`);
- the Calendar backing layer (`checkCalendarAccess`, `getAllEvents`,
  `findEvents`, `createEvent`);
- the top-level call-tool request handler (`handleCallTool`).

Modelling conventions:
- JavaScript values that flow through the loosely-typed argument objects
  are modelled by `JVal` (string, number, boolean, null); an absent key is
  `Option.none`.  JavaScript truthiness is `truthy`.
- Dates are modelled as integer timestamps; ISO-8601 parsing at the
  protocol boundary is an uninterpreted world function (`World.parseDate`).
- A JXA/AppleScript call that throws is modelled as `Except.error`; the
  platform-determined text of a backing-store failure is the abstract
  constant `backingError`.
- Each backing collection (a reminders list, a calendar) carries two
  failure flags: `searchFails` (its filtered query throws) and `enumFails`
  (its full enumeration throws), mirroring the two distinct bridge calls.
- The Contacts / Notes / Messages utilities are not part of the sources
  under verification; they are modelled from the spec as uninterpreted
  external collaborators carried in `World`.
-/

/-- Lower-case a string character by character (models
JavaScript `String.prototype.toLowerCase` on the ASCII range used here). -/
def strLower (s : String) : String := ⟨s.data.map Char.toLower⟩

/-- Substring containment (models JavaScript `String.prototype.includes`). -/
def strIncludes (s sub : String) : Bool := decide (sub.data <:+: s.data)

/-- A JavaScript runtime value as it appears in a request argument object. -/
inductive JVal where
  | str (s : String)
  | num (n : Int)
  | boolV (b : Bool)
  | nullV
deriving DecidableEq

/-- JavaScript truthiness of a possibly-absent value:
`undefined`, `null`, `""`, `0` and `false` are falsy. -/
def truthy : Option JVal → Bool
  | some (JVal.str s) => s != ""
  | some (JVal.num n) => n != 0
  | some (JVal.boolV b) => b
  | some JVal.nullV => false
  | none => false

/-- `typeof v === "string"` for a present value; false when absent. -/
def isStringVal : Option JVal → Bool
  | some (JVal.str _) => true
  | _ => false

/-- `typeof v === "number"` for a present value; false when absent. -/
def isNumberVal : Option JVal → Bool
  | some (JVal.num _) => true
  | _ => false

/-- The string content of a value, `""` otherwise (used only after the
validators have established the field is a truthy string). -/
def getStr : Option JVal → String
  | some (JVal.str s) => s
  | _ => ""

/-- The numeric content of a value, `0` otherwise. -/
def getNum : Option JVal → Int
  | some (JVal.num n) => n
  | _ => 0

/-- The raw argument object of a tool invocation: every key any tool ever
reads, each possibly absent.  Mirrors the untyped `args` object that the
request handler destructures. -/
structure RawArgs where
  operation : Option JVal := none
  name : Option JVal := none
  searchText : Option JVal := none
  phoneNumber : Option JVal := none
  message : Option JVal := none
  limit : Option JVal := none
  scheduledTime : Option JVal := none
  title : Option JVal := none
  notes : Option JVal := none
  dueDate : Option JVal := none
  id : Option JVal := none
  startDate : Option JVal := none
  endDate : Option JVal := none
  description : Option JVal := none
  location : Option JVal := none
  duration : Option JVal := none
deriving DecidableEq

/-- Embedding of `isContactsArgs`: the `name` key, when present, must be a
string. -/
def isContactsArgs (a : RawArgs) : Bool :=
  match a.name with
  | none => true
  | some (JVal.str _) => true
  | some _ => false

/-- Embedding of `isNotesArgs`: the `searchText` key, when present, must be
a string. -/
def isNotesArgs (a : RawArgs) : Bool :=
  match a.searchText with
  | none => true
  | some (JVal.str _) => true
  | some _ => false

/-- Embedding of `isMessagesArgs`: operation must be one of the four
message operations; per-operation required fields are checked for
truthiness; present truthy fields must have the expected primitive type. -/
def isMessagesArgs (a : RawArgs) : Bool :=
  match a.operation with
  | some (JVal.str op) =>
    if !(["send", "read", "schedule", "unread"].contains op) then false
    else if (op == "send" || op == "schedule") &&
        (!(truthy a.phoneNumber) || !(truthy a.message)) then false
    else if op == "schedule" && !(truthy a.scheduledTime) then false
    else if op == "read" && !(truthy a.phoneNumber) then false
    else if truthy a.phoneNumber && !(isStringVal a.phoneNumber) then false
    else if truthy a.message && !(isStringVal a.message) then false
    else if truthy a.limit && !(isNumberVal a.limit) then false
    else if truthy a.scheduledTime && !(isStringVal a.scheduledTime) then false
    else true
  | _ => false

/-- Embedding of `isRemindersArgs`. -/
def isRemindersArgs (a : RawArgs) : Bool :=
  match a.operation with
  | some (JVal.str op) =>
    if !(["list", "find", "create", "complete"].contains op) then false
    else if op == "find" && !(truthy a.searchText) then false
    else if op == "create" && !(truthy a.title) then false
    else if op == "complete" && !(truthy a.id) then false
    else if truthy a.searchText && !(isStringVal a.searchText) then false
    else if truthy a.title && !(isStringVal a.title) then false
    else if truthy a.notes && !(isStringVal a.notes) then false
    else if truthy a.dueDate && !(isStringVal a.dueDate) then false
    else if truthy a.id && !(isStringVal a.id) then false
    else true
  | _ => false

/-- Embedding of `isCalendarArgs`. -/
def isCalendarArgs (a : RawArgs) : Bool :=
  match a.operation with
  | some (JVal.str op) =>
    if !(["list", "find", "create"].contains op) then false
    else if op == "find" && !(truthy a.searchText) then false
    else if op == "create" &&
        (!(truthy a.title) || !(truthy a.startDate) || !(truthy a.duration)) then false
    else if truthy a.searchText && !(isStringVal a.searchText) then false
    else if truthy a.startDate && !(isStringVal a.startDate) then false
    else if truthy a.endDate && !(isStringVal a.endDate) then false
    else if truthy a.title && !(isStringVal a.title) then false
    else if truthy a.description && !(isStringVal a.description) then false
    else if truthy a.location && !(isStringVal a.location) then false
    else if truthy a.duration && !(isNumberVal a.duration) then false
    else true
  | _ => false

/-- A reminder record as mapped out of the Reminders bridge
(`id`, `name` as `title`, `body` as `notes`, `dueDate`, `completed`). -/
structure Reminder where
  id : String
  title : String
  notes : String
  dueDate : Option Int
  isCompleted : Bool
deriving DecidableEq

/-- One backing reminders list.  `searchFails` models its filtered
`whose(...)` query throwing; `enumFails` models its full `reminders()`
enumeration throwing. -/
structure RemList where
  reminders : List Reminder
  searchFails : Bool := false
  enumFails : Bool := false
deriving DecidableEq

/-- The Reminders application state visible to one call: the capability
probe outcome, the lists in iteration order, the index of the default
list, and the identifier the application would assign to a new reminder. -/
structure RemWorld where
  probeOk : Bool
  lists : List RemList
  defaultIdx : Nat := 0
  freshId : String := "new"
deriving DecidableEq

/-- Abstract text of a platform-determined backing-store failure. -/
def backingError : String := "backing store error"

/-- The remediation message of `checkRemindersAccess`. -/
def remAccessMsg : String :=
  "Cannot access Reminders app. Please grant access in System Preferences > Security & Privacy > Privacy > Reminders."

/-- The remediation message of `checkCalendarAccess`. -/
def calAccessMsg : String :=
  "Cannot access Calendar app. Please grant access in System Preferences > Security & Privacy > Privacy > Calendars."

/-- Embedding of `checkRemindersAccess`: a failing count probe is
converted into the remediation error; otherwise the probe returns true. -/
def checkRemindersAccess (w : RemWorld) : Except String Bool :=
  if w.probeOk then .ok true else .error remAccessMsg

/-- Full enumeration across all reminder lists, in list order.  There is
no per-list catch in the source, so the first failing list aborts the
whole enumeration. -/
def enumAllReminders : List RemList → Except String (List Reminder)
  | [] => .ok []
  | l :: rest =>
    if l.enumFails then .error backingError
    else do
      let tail ← enumAllReminders rest
      .ok (l.reminders ++ tail)

/-- Embedding of `getAllReminders`. -/
def getAllReminders (w : RemWorld) : Except String (List Reminder) :=
  match checkRemindersAccess w with
  | .error e => .error ("Error accessing reminders: " ++ e)
  | .ok ok =>
    if !ok then .ok []
    else
      match enumAllReminders w.lists with
      | .error e => .error ("Error accessing reminders: " ++ e)
      | .ok items => .ok items

/-- The strict per-list predicate delegated to the backing store:
`name contains searchText or body contains searchText`. -/
def strictRemMatch (txt : String) (r : Reminder) : Bool :=
  strIncludes r.title txt || strIncludes r.notes txt

/-- Strict search across all reminder lists, in list order.  There is no
per-list catch in the source, so the first failing list aborts the whole
search. -/
def searchAllReminders (ls : List RemList) (txt : String) : Except String (List Reminder) :=
  match ls with
  | [] => .ok []
  | l :: rest =>
    if l.searchFails then .error backingError
    else do
      let tail ← searchAllReminders rest txt
      .ok (l.reminders.filter (strictRemMatch txt) ++ tail)

/-- The client-side fallback filter of `findReminders`: case-insensitive
substring match on title and notes. -/
def fallbackRemFilter (txt : String) (items : List Reminder) : List Reminder :=
  items.filter (fun r =>
    strIncludes (strLower r.title) (strLower txt) ||
    strIncludes (strLower r.notes) (strLower txt))

/-- Embedding of `findReminders`: strict delegated search first; when it
returns no results, one fallback pass of full enumeration plus the
client-side case-insensitive filter. -/
def findReminders (w : RemWorld) (txt : String) : Except String (List Reminder) :=
  match checkRemindersAccess w with
  | .error e => .error ("Error finding reminders: " ++ e)
  | .ok ok =>
    if !ok then .ok []
    else
      match searchAllReminders w.lists txt with
      | .error e => .error ("Error finding reminders: " ++ e)
      | .ok rs =>
        if rs.isEmpty then
          match getAllReminders w with
          | .error e => .error ("Error finding reminders: " ++ e)
          | .ok all => .ok (fallbackRemFilter txt all)
        else .ok rs

/-- Embedding of `createReminder`: appends a fresh, uncompleted reminder
to the default list and returns it alongside the updated world.  The
source returns `null` only on the dead access-denied branch, modelled by
`Option`; a missing default list is modelled as a backing-store failure. -/
def createReminder (w : RemWorld) (title notes : String) (dueDate : Option Int) :
    Except String (Option Reminder) × RemWorld :=
  match checkRemindersAccess w with
  | .error e => (.error ("Error creating reminder: " ++ e), w)
  | .ok ok =>
    if !ok then (.ok none, w)
    else
      if h : w.defaultIdx < w.lists.length then
        let r : Reminder :=
          { id := w.freshId, title := title, notes := notes,
            dueDate := dueDate, isCompleted := false }
        let l := w.lists.get ⟨w.defaultIdx, h⟩
        (.ok (some r),
         { w with lists := w.lists.set w.defaultIdx { l with reminders := l.reminders ++ [r] } })
      else (.error ("Error creating reminder: " ++ backingError), w)

/-- Set `isCompleted := true` on the first reminder with the given id;
`none` when no reminder in the list matches. -/
def markReminder : List Reminder → String → Option (List Reminder)
  | [], _ => none
  | r :: rest, rid =>
    if r.id == rid then some ({ r with isCompleted := true } :: rest)
    else
      match markReminder rest rid with
      | some rest' => some (r :: rest')
      | none => none

/-- Walk the lists in order looking for the id; the walk stops at the
first match, so later lists are not enumerated.  A list whose enumeration
fails before a match is found aborts the walk (no per-list catch in the
source). -/
def markFirstById : List RemList → String → Except String (Bool × List RemList)
  | [], _ => .ok (false, [])
  | l :: rest, rid =>
    if l.enumFails then .error backingError
    else
      match markReminder l.reminders rid with
      | some rs' => .ok (true, { l with reminders := rs' } :: rest)
      | none => do
        let (found, rest') ← markFirstById rest rid
        .ok (found, l :: rest')

/-- Embedding of `completeReminder`: returns whether a reminder with the
id was found (and marked), alongside the updated world. -/
def completeReminder (w : RemWorld) (rid : String) : Except String Bool × RemWorld :=
  match checkRemindersAccess w with
  | .error e => (.error ("Error completing reminder: " ++ e), w)
  | .ok ok =>
    if !ok then (.ok false, w)
    else
      match markFirstById w.lists rid with
      | .error e => (.error ("Error completing reminder: " ++ e), w)
      | .ok (found, lists') => (.ok found, { w with lists := lists' })

/-- A calendar event record as mapped out of the Calendar bridge
(`summary` as `title`; start and end as integer timestamps). -/
structure CalendarEvent where
  id : String
  title : String
  description : String
  startDate : Int
  endDate : Int
  location : String
  calendarName : String
deriving DecidableEq

/-- One backing calendar.  `searchFails` models its filtered or plain
event query inside `findEvents` throwing; `enumFails` models its
`events()` enumeration inside `getAllEvents` throwing. -/
structure Cal where
  name : String
  events : List CalendarEvent
  searchFails : Bool := false
  enumFails : Bool := false
deriving DecidableEq

/-- The Calendar application state visible to one call. -/
structure CalWorld where
  probeOk : Bool
  cals : List Cal
  defaultIdx : Nat := 0
  freshId : String := "new"
deriving DecidableEq

/-- Embedding of `checkCalendarAccess`. -/
def checkCalendarAccess (w : CalWorld) : Except String Bool :=
  if w.probeOk then .ok true else .error calAccessMsg

/-- Full enumeration across all calendars, in calendar order; a calendar
whose enumeration throws is skipped (per-calendar catch in the source). -/
def enumAllEvents : List Cal → List CalendarEvent
  | [] => []
  | c :: rest => (if c.enumFails then [] else c.events) ++ enumAllEvents rest

/-- Embedding of `getAllEvents`. -/
def getAllEvents (w : CalWorld) : Except String (List CalendarEvent) :=
  match checkCalendarAccess w with
  | .error e => .error ("Error accessing calendar events: " ++ e)
  | .ok ok => if !ok then .ok [] else .ok (enumAllEvents w.cals)

/-- The text predicate of the strict calendar search: substring match on
title, description or location (case-sensitive, as in the source). -/
def eventTextMatch (txt : String) (e : CalendarEvent) : Bool :=
  strIncludes e.title txt || strIncludes e.description txt || strIncludes e.location txt

/-- The date stage of the strict calendar search: only when BOTH bounds
are supplied does the source delegate a `whose` filter, keeping events
with `startDate >= a` and `endDate <= b`; otherwise all events of the
calendar are taken. -/
def dateFilter (sd ed : Option Int) (es : List CalendarEvent) : List CalendarEvent :=
  match sd, ed with
  | some a, some b => es.filter (fun e => decide (a ≤ e.startDate) && decide (e.endDate ≤ b))
  | _, _ => es

/-- Strict search across all calendars, in calendar order: per calendar,
the date stage then the text stage; a calendar whose query throws is
skipped (per-calendar catch in the source). -/
def strictSearchEvents (cs : List Cal) (txt : String) (sd ed : Option Int) :
    List CalendarEvent :=
  match cs with
  | [] => []
  | c :: rest =>
    (if c.searchFails then []
     else (dateFilter sd ed c.events).filter (eventTextMatch txt)) ++
    strictSearchEvents rest txt sd ed

/-- The client-side fallback filter of `findEvents`: case-insensitive
substring match on title, description and location. -/
def fallbackEventFilter (txt : String) (es : List CalendarEvent) : List CalendarEvent :=
  es.filter (fun e =>
    strIncludes (strLower e.title) (strLower txt) ||
    strIncludes (strLower e.description) (strLower txt) ||
    strIncludes (strLower e.location) (strLower txt))

/-- Embedding of `findEvents`: strict delegated search first; when it
returns no results AND no date bound was supplied, one fallback pass of
full enumeration plus the client-side case-insensitive filter. -/
def findEvents (w : CalWorld) (txt : String) (sd ed : Option Int) :
    Except String (List CalendarEvent) :=
  match checkCalendarAccess w with
  | .error e => .error ("Error finding calendar events: " ++ e)
  | .ok ok =>
    if !ok then .ok []
    else
      let evs := strictSearchEvents w.cals txt sd ed
      if evs.isEmpty && sd.isNone && ed.isNone then
        match getAllEvents w with
        | .error e => .error ("Error finding calendar events: " ++ e)
        | .ok all => .ok (fallbackEventFilter txt all)
      else .ok evs

/-- Embedding of `createEvent`: the end date is start plus duration
minutes (in milliseconds); the event is appended to the default calendar.
The source returns `null` only on the dead access-denied branch, modelled
by `Option`; a missing default calendar is modelled as a backing-store
failure. -/
def createEvent (w : CalWorld) (title : String) (startDate duration : Int)
    (description location : String) : Except String (Option CalendarEvent) × CalWorld :=
  match checkCalendarAccess w with
  | .error e => (.error ("Error creating calendar event: " ++ e), w)
  | .ok ok =>
    if !ok then (.ok none, w)
    else
      let endDate := startDate + duration * 60000
      if h : w.defaultIdx < w.cals.length then
        let c := w.cals.get ⟨w.defaultIdx, h⟩
        let ev : CalendarEvent :=
          { id := w.freshId, title := title, description := description,
            startDate := startDate, endDate := endDate,
            location := location, calendarName := c.name }
        (.ok (some ev),
         { w with cals := w.cals.set w.defaultIdx { c with events := c.events ++ [ev] } })
      else (.error ("Error creating calendar event: " ++ backingError), w)

/-- A message record as produced by the messages utility. -/
structure MsgRecord where
  date : Int
  is_from_me : Bool
  sender : String
  content : String

/-- Modelled from the spec: the external automation-bridge collaborators
for the Contacts, Notes and Messages utilities, whose implementations are
not among the sources under verification (spec treats them as external
collaborators: `probe`, `readAll`, `searchByPredicate`, `insert` behind
per-domain utility modules).  Each is an uninterpreted call-local oracle
returning either a value or a thrown error.  `parseDate` models ISO-8601
string parsing at the protocol boundary. -/
structure World where
  rem : RemWorld
  cal : CalWorld
  parseDate : String → Int
  contactsFindNumber : String → Except String (List String)
  contactsGetAllNumbers : Except String (List (String × List String))
  contactsFindByPhone : String → Except String String
  notesFindNote : String → Except String (List (String × String))
  notesGetAllNotes : Except String (List (String × String))
  msgSend : String → String → Except String Unit
  msgRead : String → Option JVal → Except String (List MsgRecord)
  msgSchedule : String → String → Int → Except String String
  msgUnread : Option JVal → Except String (List MsgRecord)

/-- One entry of the `content` array of a call-tool response. -/
structure TextContent where
  ctype : String
  text : String
deriving DecidableEq

/-- The `{content, isError}` value returned to the protocol host. -/
structure CallToolResult where
  content : List TextContent
  isError : Bool
deriving DecidableEq

/-- The single-text-entry result shape every branch of the handler
produces. -/
def textResult (t : String) (err : Bool) : CallToolResult :=
  { content := [{ ctype := "text", text := t }], isError := err }

/-- Rendering of one reminder line (dates rendered via `toString`). -/
def renderReminderLine (r : Reminder) : String :=
  (if r.isCompleted then "[✓]" else "[ ]") ++ " [ID: " ++ r.id ++ "] " ++ r.title ++ " " ++
  (match r.dueDate with | some d => "(Due: " ++ toString d ++ ")" | none => "") ++ "\n" ++
  (if r.notes != "" then "Notes: " ++ r.notes ++ "\n" else "")

/-- Rendering of one calendar event block. -/
def renderEventBlock (e : CalendarEvent) : String :=
  "[" ++ e.calendarName ++ "] " ++ e.title ++ "\n" ++
  toString e.startDate ++ " - " ++ toString e.endDate ++ "\n" ++
  (if e.location != "" then "Location: " ++ e.location ++ "\n" else "") ++
  (if e.description != "" then "Description: " ++ e.description ++ "\n" else "")

/-- Rendering of one read-messages line. -/
def renderMsgLine (m : MsgRecord) : String :=
  "[" ++ toString m.date ++ "] " ++ (if m.is_from_me then "Me" else m.sender) ++ ": " ++ m.content

/-- Rendering of one unread-message block with its resolved display name. -/
def renderUnreadBlock (p : MsgRecord × String) : String :=
  "[" ++ toString p.1.date ++ "] From " ++ p.2 ++ ":\n" ++ p.1.content

/-- The contacts branch of the call-tool handler (its internal try/catch
converts contact errors into error results locally). -/
def handleContacts (a : RawArgs) (w : World) : Except String CallToolResult × World :=
  if !(isContactsArgs a) then (.error "Invalid arguments for contacts tool", w)
  else if truthy a.name then
    match w.contactsFindNumber (getStr a.name) with
    | .ok numbers =>
      (.ok (textResult
        (if numbers.length != 0 then getStr a.name ++ ": " ++ String.intercalate ", " numbers
         else "No contact found for \"" ++ getStr a.name ++
           "\". Try a different name or use no name parameter to list all contacts.")
        false), w)
    | .error e => (.ok (textResult ("Error accessing contacts: " ++ e) true), w)
  else
    match w.contactsGetAllNumbers with
    | .ok allNumbers =>
      if allNumbers.length == 0 then
        (.ok (textResult "No contacts found in the address book. Please make sure you have granted access to Contacts." false), w)
      else
        let formatted := (allNumbers.filter (fun np => np.2.length != 0)).map
          (fun np => np.1 ++ ": " ++ String.intercalate ", " np.2)
        (.ok (textResult
          (if formatted.length != 0 then
            "Found " ++ toString allNumbers.length ++ " contacts:\n\n" ++
              String.intercalate "\n" formatted
           else "Found contacts but none have phone numbers. Try searching by name to see more details.")
          false), w)
    | .error e => (.ok (textResult ("Error accessing contacts: " ++ e) true), w)

/-- The notes branch of the call-tool handler. -/
def handleNotes (a : RawArgs) (w : World) : Except String CallToolResult × World :=
  if !(isNotesArgs a) then (.error "Invalid arguments for notes tool", w)
  else if truthy a.searchText then
    match w.notesFindNote (getStr a.searchText) with
    | .ok found =>
      (.ok (textResult
        (if found.length != 0 then
          String.intercalate "\n\n" (found.map (fun n => n.1 ++ ":\n" ++ n.2))
         else "No notes found for \"" ++ getStr a.searchText ++ "\"")
        false), w)
    | .error e => (.error e, w)
  else
    match w.notesGetAllNotes with
    | .ok allNotes =>
      (.ok (textResult
        (String.intercalate "\n\n" (allNotes.map (fun n => n.1 ++ ":\n" ++ n.2))) false), w)
    | .error e => (.error e, w)

/-- The messages branch of the call-tool handler. -/
def handleMessages (a : RawArgs) (w : World) : Except String CallToolResult × World :=
  if !(isMessagesArgs a) then (.error "Invalid arguments for messages tool", w)
  else
    if getStr a.operation == "send" then
      if !(truthy a.phoneNumber) || !(truthy a.message) then
        (.error "Phone number and message are required for send operation", w)
      else
        match w.msgSend (getStr a.phoneNumber) (getStr a.message) with
        | .ok _ => (.ok (textResult ("Message sent to " ++ getStr a.phoneNumber) false), w)
        | .error e => (.error e, w)
    else if getStr a.operation == "read" then
      if !(truthy a.phoneNumber) then
        (.error "Phone number is required for read operation", w)
      else
        match w.msgRead (getStr a.phoneNumber) a.limit with
        | .ok msgs =>
          (.ok (textResult
            (if msgs.length != 0 then String.intercalate "\n" (msgs.map renderMsgLine)
             else "No messages found") false), w)
        | .error e => (.error e, w)
    else if getStr a.operation == "schedule" then
      if !(truthy a.phoneNumber) || !(truthy a.message) || !(truthy a.scheduledTime) then
        (.error "Phone number, message, and scheduled time are required for schedule operation", w)
      else
        match w.msgSchedule (getStr a.phoneNumber) (getStr a.message)
            (w.parseDate (getStr a.scheduledTime)) with
        | .ok st =>
          (.ok (textResult
            ("Message scheduled to be sent to " ++ getStr a.phoneNumber ++ " at " ++ st)
            false), w)
        | .error e => (.error e, w)
    else if getStr a.operation == "unread" then
      match w.msgUnread a.limit with
      | .ok msgs =>
        match msgs.mapM (fun m =>
            if !m.is_from_me then
              (w.contactsFindByPhone m.sender).map
                (fun cn => (m, if cn != "" then cn else m.sender))
            else .ok (m, "Me")) with
        | .ok withNames =>
          (.ok (textResult
            (if withNames.length != 0 then
              "Found " ++ toString withNames.length ++ " unread message(s):\n" ++
                String.intercalate "\n\n" (withNames.map renderUnreadBlock)
             else "No unread messages found") false), w)
        | .error e => (.error e, w)
      | .error e => (.error e, w)
    else (.error ("Unknown operation: " ++ getStr a.operation), w)

/-- The reminders branch of the call-tool handler. -/
def handleReminders (a : RawArgs) (w : World) : Except String CallToolResult × World :=
  if !(isRemindersArgs a) then (.error "Invalid arguments for reminders tool", w)
  else
    if getStr a.operation == "list" then
      match getAllReminders w.rem with
      | .ok rs =>
        (.ok (textResult
          (if rs.length != 0 then
            "Found " ++ toString rs.length ++ " reminders:\n\n" ++
              String.intercalate "\n\n" (rs.map renderReminderLine)
           else "No reminders found") false), w)
      | .error e => (.error e, w)
    else if getStr a.operation == "find" then
      if !(truthy a.searchText) then
        (.error "Search text is required for find operation", w)
      else
        match findReminders w.rem (getStr a.searchText) with
        | .ok rs =>
          (.ok (textResult
            (if rs.length != 0 then
              "Found " ++ toString rs.length ++ " matching reminders:\n\n" ++
                String.intercalate "\n\n" (rs.map renderReminderLine)
             else "No reminders found matching \"" ++ getStr a.searchText ++ "\"")
            false), w)
        | .error e => (.error e, w)
    else if getStr a.operation == "create" then
      if !(truthy a.title) then
        (.error "Title is required for create operation", w)
      else
        match createReminder w.rem (getStr a.title) (getStr a.notes)
            (if truthy a.dueDate then some (w.parseDate (getStr a.dueDate)) else none) with
        | (.error e, rem1) => (.error e, { w with rem := rem1 })
        | (.ok none, rem1) => (.error "Failed to create reminder", { w with rem := rem1 })
        | (.ok (some r), rem1) =>
          (.ok (textResult
            ("Reminder created: \"" ++ r.title ++ "\"" ++
              (match r.dueDate with
               | some d => " (Due: " ++ toString d ++ ")"
               | none => "")) false), { w with rem := rem1 })
    else if getStr a.operation == "complete" then
      if !(truthy a.id) then
        (.error "Reminder ID is required for complete operation", w)
      else
        match completeReminder w.rem (getStr a.id) with
        | (.error e, rem1) => (.error e, { w with rem := rem1 })
        | (.ok success, rem1) =>
          (.ok (textResult
            (if success then "Reminder marked as completed"
             else "Failed to complete reminder. ID " ++ getStr a.id ++ " not found.")
            (!success)), { w with rem := rem1 })
    else (.error ("Unknown operation: " ++ getStr a.operation), w)

/-- The calendar branch of the call-tool handler. -/
def handleCalendar (a : RawArgs) (w : World) : Except String CallToolResult × World :=
  if !(isCalendarArgs a) then (.error "Invalid arguments for calendar tool", w)
  else
    if getStr a.operation == "list" then
      match getAllEvents w.cal with
      | .ok es =>
        (.ok (textResult
          (if es.length != 0 then
            "Found " ++ toString es.length ++ " calendar events:\n\n" ++
              String.intercalate "\n\n" (es.map renderEventBlock)
           else "No calendar events found") false), w)
      | .error e => (.error e, w)
    else if getStr a.operation == "find" then
      if !(truthy a.searchText) then
        (.error "Search text is required for find operation", w)
      else
        match findEvents w.cal (getStr a.searchText)
            (if truthy a.startDate then some (w.parseDate (getStr a.startDate)) else none)
            (if truthy a.endDate then some (w.parseDate (getStr a.endDate)) else none) with
        | .ok es =>
          (.ok (textResult
            (if es.length != 0 then
              "Found " ++ toString es.length ++ " matching events:\n\n" ++
                String.intercalate "\n\n" (es.map renderEventBlock)
             else "No calendar events found matching \"" ++ getStr a.searchText ++ "\"")
            false), w)
        | .error e => (.error e, w)
    else if getStr a.operation == "create" then
      if !(truthy a.title) || !(truthy a.startDate) || !(truthy a.duration) then
        (.error "Title, start date, and duration are required for create operation", w)
      else
        match createEvent w.cal (getStr a.title) (w.parseDate (getStr a.startDate))
            (getNum a.duration) (getStr a.description) (getStr a.location) with
        | (.error e, cal1) => (.error e, { w with cal := cal1 })
        | (.ok none, cal1) => (.error "Failed to create calendar event", { w with cal := cal1 })
        | (.ok (some ev), cal1) =>
          (.ok (textResult
            ("Calendar event created: \"" ++ ev.title ++ "\"\n" ++
              toString ev.startDate ++ " - " ++ toString ev.endDate ++
              (if ev.location != "" then "\nLocation: " ++ ev.location else ""))
            false), { w with cal := cal1 })
    else (.error ("Unknown operation: " ++ getStr a.operation), w)

/-- The body of the call-tool request handler before its catch-all:
argument presence check, then the tool-name switch.  An `Except.error`
models a thrown error reaching the single failure boundary. -/
def dispatchCore (name : String) (args? : Option RawArgs) (w : World) :
    Except String CallToolResult × World :=
  match args? with
  | none => (.error "No arguments provided", w)
  | some args =>
    if name == "contacts" then handleContacts args w
    else if name == "notes" then handleNotes args w
    else if name == "messages" then handleMessages args w
    else if name == "reminders" then handleReminders args w
    else if name == "calendar" then handleCalendar args w
    else (.ok (textResult ("Unknown tool: " ++ name) true), w)

/-- Embedding of the call-tool request handler: the single failure
boundary that converts any error thrown below into an
`{content, isError: true}` result.  The function is total: no input
makes it raise. -/
def handleCallTool (name : String) (args? : Option RawArgs) (w : World) :
    CallToolResult × World :=
  match dispatchCore name args? w with
  | (.ok r, w') => (r, w')
  | (.error e, w') => (textResult ("Error: " ++ e) true, w')

/-! ### Aggregation lemmas -/

/-- The concatenation, in list order, of each reminder list's strict
search hits (the value `searchAllReminders` returns when no list fails). -/
def strictHits : List RemList → String → List Reminder
  | [], _ => []
  | l :: rest, txt => l.reminders.filter (strictRemMatch txt) ++ strictHits rest txt

theorem searchAllReminders_ok (ls : List RemList) (txt : String)
    (h : ∀ l ∈ ls, l.searchFails = false) :
    searchAllReminders ls txt = .ok (strictHits ls txt) := by
  induction ls with
  | nil => rfl
  | cons l rest ih =>
    have hl : l.searchFails = false := h l (by simp)
    have hrest : ∀ x ∈ rest, x.searchFails = false := fun x hx => h x (by simp [hx])
    simp only [searchAllReminders, hl, ih hrest, strictHits, Bool.false_eq_true, if_false]
    rfl

theorem searchAllReminders_err (ls : List RemList) (txt : String)
    (h : ∃ l ∈ ls, l.searchFails = true) :
    searchAllReminders ls txt = .error backingError := by
  induction ls with
  | nil => simp at h
  | cons l rest ih =>
    by_cases hl : l.searchFails
    · simp [searchAllReminders, hl]
    · obtain ⟨x, hx, hfx⟩ := h
      rcases List.mem_cons.mp hx with rfl | hx'
      · exact absurd hfx (by simpa using hl)
      · simp only [searchAllReminders, ih ⟨x, hx', hfx⟩]
        simp [hl]
        rfl

theorem strictHits_empty (ls : List RemList) (txt : String)
    (h : ∀ l ∈ ls, ∀ r ∈ l.reminders, strictRemMatch txt r = false) :
    strictHits ls txt = [] := by
  induction ls with
  | nil => rfl
  | cons l rest ih =>
    have hl : l.reminders.filter (strictRemMatch txt) = [] :=
      List.filter_eq_nil_iff.mpr (fun r hr => by simp [h l (by simp) r hr])
    simp [strictHits, hl, ih (fun x hx r hr => h x (by simp [hx]) r hr)]

theorem strictSearchEvents_append (cs₁ cs₂ : List Cal) (txt : String) (sd ed : Option Int) :
    strictSearchEvents (cs₁ ++ cs₂) txt sd ed =
      strictSearchEvents cs₁ txt sd ed ++ strictSearchEvents cs₂ txt sd ed := by
  induction cs₁ with
  | nil => simp [strictSearchEvents]
  | cons c rest ih => simp [strictSearchEvents, ih, List.append_assoc]

theorem strictSearchEvents_allFail (cs : List Cal) (txt : String) (sd ed : Option Int)
    (h : ∀ c ∈ cs, c.searchFails = true) :
    strictSearchEvents cs txt sd ed = [] := by
  induction cs with
  | nil => rfl
  | cons c rest ih =>
    simp [strictSearchEvents, h c (by simp), ih (fun x hx => h x (by simp [hx]))]

theorem enumAllEvents_allFail (cs : List Cal)
    (h : ∀ c ∈ cs, c.enumFails = true) :
    enumAllEvents cs = [] := by
  induction cs with
  | nil => rfl
  | cons c rest ih =>
    simp [enumAllEvents, h c (by simp), ih (fun x hx => h x (by simp [hx]))]

theorem findEvents_of_strict_ne (w : CalWorld) (txt : String) (sd ed : Option Int)
    (hp : w.probeOk = true) (hne : strictSearchEvents w.cals txt sd ed ≠ []) :
    findEvents w txt sd ed = .ok (strictSearchEvents w.cals txt sd ed) := by
  have hb : (strictSearchEvents w.cals txt sd ed).isEmpty = false := by
    simpa [List.isEmpty_iff] using hne
  simp [findEvents, checkCalendarAccess, hp, hb]

theorem findEvents_of_date_present (w : CalWorld) (txt : String) (sd ed : Option Int)
    (hp : w.probeOk = true) (hd : sd ≠ none ∨ ed ≠ none) :
    findEvents w txt sd ed = .ok (strictSearchEvents w.cals txt sd ed) := by
  rcases hd with h | h
  · obtain ⟨v, rfl⟩ := Option.ne_none_iff_exists'.mp h
    simp [findEvents, checkCalendarAccess, hp]
  · obtain ⟨v, rfl⟩ := Option.ne_none_iff_exists'.mp h
    simp [findEvents, checkCalendarAccess, hp]

theorem findEvents_fallback (w : CalWorld) (txt : String)
    (hp : w.probeOk = true) (he : strictSearchEvents w.cals txt none none = []) :
    findEvents w txt none none = .ok (fallbackEventFilter txt (enumAllEvents w.cals)) := by
  simp [findEvents, checkCalendarAccess, hp, he, getAllEvents]

theorem findReminders_of_strict_ne (w : RemWorld) (txt : String) (rs : List Reminder)
    (hp : w.probeOk = true) (hs : searchAllReminders w.lists txt = .ok rs) (hne : rs ≠ []) :
    findReminders w txt = .ok rs := by
  have hb : rs.isEmpty = false := by simpa [List.isEmpty_iff] using hne
  simp [findReminders, checkRemindersAccess, hp, hs, hb]

theorem findReminders_fallback (w : RemWorld) (txt : String) (items : List Reminder)
    (hp : w.probeOk = true) (hs : searchAllReminders w.lists txt = .ok [])
    (he : enumAllReminders w.lists = .ok items) :
    findReminders w txt = .ok (fallbackRemFilter txt items) := by
  simp [findReminders, checkRemindersAccess, hp, hs, getAllReminders, he]

/-! ### C7 -/

/-- C7: for every reminders or calendar operation, a failed capability
probe surfaces an access-denied error whose message names the domain's
exact privacy settings path, and no backing collection source is read or
written afterwards: each operation's outcome is a fixed error value
independent of the backing lists/calendars, and the mutating operations
return the world unchanged. -/
theorem c7_capability_gate :
    (∀ w : RemWorld, w.probeOk = false →
      getAllReminders w = .error ("Error accessing reminders: " ++ remAccessMsg)) ∧
    (∀ (w : RemWorld) (txt : String), w.probeOk = false →
      findReminders w txt = .error ("Error finding reminders: " ++ remAccessMsg)) ∧
    (∀ (w : RemWorld) (t n : String) (d : Option Int), w.probeOk = false →
      createReminder w t n d = (.error ("Error creating reminder: " ++ remAccessMsg), w)) ∧
    (∀ (w : RemWorld) (rid : String), w.probeOk = false →
      completeReminder w rid = (.error ("Error completing reminder: " ++ remAccessMsg), w)) ∧
    (∀ w : CalWorld, w.probeOk = false →
      getAllEvents w = .error ("Error accessing calendar events: " ++ calAccessMsg)) ∧
    (∀ (w : CalWorld) (txt : String) (sd ed : Option Int), w.probeOk = false →
      findEvents w txt sd ed = .error ("Error finding calendar events: " ++ calAccessMsg)) ∧
    (∀ (w : CalWorld) (t : String) (s d : Int) (de l : String), w.probeOk = false →
      createEvent w t s d de l = (.error ("Error creating calendar event: " ++ calAccessMsg), w)) ∧
    strIncludes remAccessMsg "System Preferences > Security & Privacy > Privacy > Reminders" = true ∧
    strIncludes calAccessMsg "System Preferences > Security & Privacy > Privacy > Calendars" = true := by
  refine ⟨?_, ?_, ?_, ?_, ?_, ?_, ?_, by decide, by decide⟩
  · intro w hp; simp [getAllReminders, checkRemindersAccess, hp]
  · intro w txt hp; simp [findReminders, checkRemindersAccess, hp]
  · intro w t n d hp; simp [createReminder, checkRemindersAccess, hp]
  · intro w rid hp; simp [completeReminder, checkRemindersAccess, hp]
  · intro w hp; simp [getAllEvents, checkCalendarAccess, hp]
  · intro w txt sd ed hp; simp [findEvents, checkCalendarAccess, hp]
  · intro w t s d de l hp; simp [createEvent, checkCalendarAccess, hp]

/-- A reminders world whose capability probe fails. -/
def deniedRemWorld : RemWorld :=
  { probeOk := false,
    lists := [{ reminders := [{ id := "r", title := "T", notes := "", dueDate := none,
                                isCompleted := false }] }] }

/-- A calendar world whose capability probe fails. -/
def deniedCalWorld : CalWorld := { probeOk := false, cals := [] }

theorem c7_capability_gate_witness :
    findReminders deniedRemWorld "T" = .error ("Error finding reminders: " ++ remAccessMsg) ∧
    completeReminder deniedRemWorld "r" =
      (.error ("Error completing reminder: " ++ remAccessMsg), deniedRemWorld) ∧
    findEvents deniedCalWorld "x" none none =
      .error ("Error finding calendar events: " ++ calAccessMsg) := by
  exact ⟨c7_capability_gate.2.1 deniedRemWorld "T" rfl,
         c7_capability_gate.2.2.2.1 deniedRemWorld "r" rfl,
         c7_capability_gate.2.2.2.2.2.1 deniedCalWorld "x" none none rfl⟩

/-! ### C3 -/

/-- A reminders list whose delegated search raises. -/
def c3failList : RemList := { reminders := [], searchFails := true }

/-- A reminder matching the search text strictly. -/
def c3rem : Reminder :=
  { id := "r2", title := "Pay rent", notes := "", dueDate := none, isCompleted := false }

/-- A healthy reminders list holding `c3rem`. -/
def c3okList : RemList := { reminders := [c3rem] }

/-- Two reminder sources, exactly one of which raises on search. -/
def c3RemWorld : RemWorld := { probeOk := true, lists := [c3failList, c3okList] }

/-- C3 counterexample: two reminders sources where exactly the first
raises during search; the claim requires the find to return the surviving
source's results (`[c3rem]`), but `findReminders` propagates the single
source failure and the whole operation errors. -/
theorem c3_counterexample :
    c3RemWorld.probeOk = true ∧
    c3RemWorld.lists = [c3failList, c3okList] ∧
    c3failList.searchFails = true ∧
    c3okList.searchFails = false ∧
    searchAllReminders [c3okList] "rent" = .ok [c3rem] ∧
    findReminders c3RemWorld "rent" = .error ("Error finding reminders: " ++ backingError) ∧
    findReminders c3RemWorld "rent" ≠ .ok [c3rem] := by
  refine ⟨rfl, rfl, rfl, rfl, rfl, rfl, ?_⟩
  intro h
  rw [show findReminders c3RemWorld "rent" =
        .error ("Error finding reminders: " ++ backingError) from rfl] at h
  exact Except.noConfusion h

/-- C3 amended: per-source failure isolation holds for calendar but not
for reminders.  (a) In the calendar strict search a raising source
contributes nothing and the remaining sources' results are concatenated
in source order; (b) a nonempty strict result is returned as-is;
(c) when every calendar source raises on search and on enumeration the
find returns an empty success result, not a domain-access error;
(d) for reminders, a single list raising during search fails the whole
find with an error. -/
theorem c3_aggregation_amended :
    (∀ (cs₁ cs₂ : List Cal) (c : Cal) (txt : String) (sd ed : Option Int),
      c.searchFails = true →
      strictSearchEvents (cs₁ ++ c :: cs₂) txt sd ed =
        strictSearchEvents cs₁ txt sd ed ++ strictSearchEvents cs₂ txt sd ed) ∧
    (∀ (w : CalWorld) (txt : String) (sd ed : Option Int), w.probeOk = true →
      strictSearchEvents w.cals txt sd ed ≠ [] →
      findEvents w txt sd ed = .ok (strictSearchEvents w.cals txt sd ed)) ∧
    (∀ (w : CalWorld) (txt : String) (sd ed : Option Int), w.probeOk = true →
      (∀ c ∈ w.cals, c.searchFails = true) → (∀ c ∈ w.cals, c.enumFails = true) →
      findEvents w txt sd ed = .ok []) ∧
    (∀ (w : RemWorld) (txt : String), w.probeOk = true →
      (∃ l ∈ w.lists, l.searchFails = true) →
      findReminders w txt = .error ("Error finding reminders: " ++ backingError)) := by
  refine ⟨?_, ?_, ?_, ?_⟩
  · intro cs₁ cs₂ c txt sd ed hc
    rw [strictSearchEvents_append]
    simp [strictSearchEvents, hc]
  · intro w txt sd ed hp hne
    exact findEvents_of_strict_ne w txt sd ed hp hne
  · intro w txt sd ed hp hsf hef
    have hs : strictSearchEvents w.cals txt sd ed = [] :=
      strictSearchEvents_allFail w.cals txt sd ed hsf
    have he : enumAllEvents w.cals = [] := enumAllEvents_allFail w.cals hef
    match sd, ed with
    | none, none =>
      rw [findEvents_fallback w txt hp hs, he]
      simp [fallbackEventFilter]
    | some a, _ =>
      rw [findEvents_of_date_present w txt _ _ hp (Or.inl (by simp)), hs]
    | _, some b =>
      rw [findEvents_of_date_present w txt _ _ hp (Or.inr (by simp)), hs]
  · intro w txt hp hex
    simp [findReminders, checkRemindersAccess, hp, searchAllReminders_err w.lists txt hex]

/-- A second calendar source whose search raises. -/
def c3failCal : Cal := { name := "Broken", events := [], searchFails := true, enumFails := true }

/-- A healthy calendar source. -/
def c3okCal : Cal :=
  { name := "Work",
    events := [{ id := "e", title := "Rent due", description := "", startDate := 0,
                 endDate := 1, location := "", calendarName := "Work" }] }

/-- A calendar world with one raising and one healthy source. -/
def c3CalWorld : CalWorld := { probeOk := true, cals := [c3failCal, c3okCal] }

/-- A calendar world in which every source raises. -/
def c3AllFailCalWorld : CalWorld := { probeOk := true, cals := [c3failCal] }

theorem c3_aggregation_amended_witness :
    strictSearchEvents [c3failCal, c3okCal] "Rent" none none =
      strictSearchEvents [] "Rent" none none ++ strictSearchEvents [c3okCal] "Rent" none none ∧
    findEvents c3CalWorld "Rent" none none =
      .ok (strictSearchEvents c3CalWorld.cals "Rent" none none) ∧
    findEvents c3AllFailCalWorld "Rent" none none = .ok [] ∧
    findReminders c3RemWorld "rent" = .error ("Error finding reminders: " ++ backingError) := by
  refine ⟨?_, ?_, ?_, ?_⟩
  · exact c3_aggregation_amended.1 [] [c3okCal] c3failCal "Rent" none none rfl
  · exact c3_aggregation_amended.2.1 c3CalWorld "Rent" none none rfl (by decide)
  · exact c3_aggregation_amended.2.2.1 c3AllFailCalWorld "Rent" none none rfl
      (by decide) (by decide)
  · exact c3_aggregation_amended.2.2.2 c3RemWorld "rent" rfl ⟨c3failList, by decide, rfl⟩

/-! ### C4 and C5 -/

/-- Filtering twice with the same predicate equals filtering once. -/
theorem filter_idem {α : Type} (p : α → Bool) (l : List α) :
    (l.filter p).filter p = l.filter p := by
  simp [List.filter_filter]

/-- C4: the fallback search runs exactly when the strict per-source
search is empty and no date bound is supplied, and it consists of one
full enumeration followed by the client-side case-insensitive filter;
with a nonempty strict result, or any date bound present, the strict
result is returned and no fallback is attempted. -/
theorem c4_fallback_policy :
    (∀ (w : RemWorld) (txt : String) (rs : List Reminder), w.probeOk = true →
      searchAllReminders w.lists txt = .ok rs → rs ≠ [] →
      findReminders w txt = .ok rs) ∧
    (∀ (w : RemWorld) (txt : String) (items : List Reminder), w.probeOk = true →
      searchAllReminders w.lists txt = .ok [] → enumAllReminders w.lists = .ok items →
      findReminders w txt = .ok (fallbackRemFilter txt items)) ∧
    (∀ (w : CalWorld) (txt : String) (sd ed : Option Int), w.probeOk = true →
      strictSearchEvents w.cals txt sd ed ≠ [] →
      findEvents w txt sd ed = .ok (strictSearchEvents w.cals txt sd ed)) ∧
    (∀ (w : CalWorld) (txt : String), w.probeOk = true →
      strictSearchEvents w.cals txt none none = [] →
      findEvents w txt none none = .ok (fallbackEventFilter txt (enumAllEvents w.cals))) ∧
    (∀ (w : CalWorld) (txt : String) (sd ed : Option Int), w.probeOk = true →
      (sd ≠ none ∨ ed ≠ none) →
      findEvents w txt sd ed = .ok (strictSearchEvents w.cals txt sd ed)) := by
  exact ⟨fun w txt rs hp hs hne => findReminders_of_strict_ne w txt rs hp hs hne,
         fun w txt items hp hs he => findReminders_fallback w txt items hp hs he,
         fun w txt sd ed hp hne => findEvents_of_strict_ne w txt sd ed hp hne,
         fun w txt hp hs => findEvents_fallback w txt hp hs,
         fun w txt sd ed hp hd => findEvents_of_date_present w txt sd ed hp hd⟩

/-- A reminder whose title matches "milk" only case-insensitively. -/
def sampleMilkRem : Reminder :=
  { id := "m1", title := "Buy Milk", notes := "", dueDate := none, isCompleted := false }

/-- A healthy reminders world holding only `sampleMilkRem`. -/
def sampleRemWorld : RemWorld := { probeOk := true, lists := [{ reminders := [sampleMilkRem] }] }

/-- An event whose title matches "standup" only case-insensitively. -/
def sampleEvent : CalendarEvent :=
  { id := "e1", title := "Standup", description := "", startDate := 100, endDate := 200,
    location := "", calendarName := "Work" }

/-- A healthy calendar world holding only `sampleEvent`. -/
def sampleCalWorld : CalWorld := { probeOk := true, cals := [{ name := "Work", events := [sampleEvent] }] }

theorem c4_fallback_policy_witness :
    findReminders sampleRemWorld "milk" = .ok [sampleMilkRem] ∧
    findEvents sampleCalWorld "standup" none none = .ok [sampleEvent] ∧
    findEvents sampleCalWorld "standup" (some 0) none = .ok [] := by
  refine ⟨?_, ?_, ?_⟩
  · have h := c4_fallback_policy.2.1 sampleRemWorld "milk" [sampleMilkRem] rfl rfl rfl
    rw [h]
    rfl
  · have h := c4_fallback_policy.2.2.2.1 sampleCalWorld "standup" rfl rfl
    rw [h]
    rfl
  · have h := c4_fallback_policy.2.2.2.2 sampleCalWorld "standup" (some 0) none rfl
      (Or.inl (by simp))
    rw [h]
    rfl

/-- C5: for a text-only find whose strict search yields zero matches, the
strict result set is contained in the fallback result, the find returns
exactly one application of the pure fallback filter to the enumerated
items, and applying that filter again changes nothing (the fallback is a
deterministic pure function of the enumerated items and the text). -/
theorem c5_fallback_superset_deterministic :
    (∀ (w : RemWorld) (txt : String) (rs items : List Reminder), w.probeOk = true →
      searchAllReminders w.lists txt = .ok rs → rs = [] →
      enumAllReminders w.lists = .ok items →
      findReminders w txt = .ok (fallbackRemFilter txt items) ∧
      rs ⊆ fallbackRemFilter txt items ∧
      fallbackRemFilter txt (fallbackRemFilter txt items) = fallbackRemFilter txt items) ∧
    (∀ (w : CalWorld) (txt : String), w.probeOk = true →
      strictSearchEvents w.cals txt none none = [] →
      findEvents w txt none none = .ok (fallbackEventFilter txt (enumAllEvents w.cals)) ∧
      strictSearchEvents w.cals txt none none ⊆
        fallbackEventFilter txt (enumAllEvents w.cals) ∧
      fallbackEventFilter txt (fallbackEventFilter txt (enumAllEvents w.cals)) =
        fallbackEventFilter txt (enumAllEvents w.cals)) := by
  constructor
  · intro w txt rs items hp hs hrs he
    subst hrs
    exact ⟨findReminders_fallback w txt items hp hs he, by simp,
           filter_idem _ items⟩
  · intro w txt hp hs
    exact ⟨findEvents_fallback w txt hp hs, by simp [hs],
           filter_idem _ (enumAllEvents w.cals)⟩

theorem c5_fallback_superset_deterministic_witness :
    findReminders sampleRemWorld "milk" =
      .ok (fallbackRemFilter "milk" [sampleMilkRem]) ∧
    ([] : List Reminder) ⊆ fallbackRemFilter "milk" [sampleMilkRem] ∧
    fallbackRemFilter "milk" (fallbackRemFilter "milk" [sampleMilkRem]) =
      fallbackRemFilter "milk" [sampleMilkRem] := by
  exact c5_fallback_superset_deterministic.1 sampleRemWorld "milk" [] [sampleMilkRem]
    rfl rfl rfl rfl

/-! ### C6 and C10 -/

theorem mem_strictSearchEvents (cs : List Cal) (txt : String) (sd ed : Option Int)
    (e : CalendarEvent) :
    e ∈ strictSearchEvents cs txt sd ed ↔
      ∃ c, c ∈ cs ∧ c.searchFails = false ∧ e ∈ dateFilter sd ed c.events ∧
        eventTextMatch txt e = true := by
  induction cs with
  | nil => simp [strictSearchEvents]
  | cons c rest ih =>
    by_cases hc : c.searchFails
    · simp only [strictSearchEvents, hc, if_true, List.nil_append, ih, List.mem_cons]
      constructor
      · rintro ⟨x, hx, h⟩
        exact ⟨x, Or.inr hx, h⟩
      · rintro ⟨x, hx | hx, hfx, h⟩
        · subst hx
          simp [hc] at hfx
        · exact ⟨x, hx, hfx, h⟩
    · have hc' : c.searchFails = false := by simpa using hc
      simp only [strictSearchEvents, hc', Bool.false_eq_true, if_false, List.mem_append,
        List.mem_filter, ih, List.mem_cons]
      constructor
      · rintro (⟨hmem, htxt⟩ | ⟨x, hx, h⟩)
        · exact ⟨c, Or.inl rfl, hc', hmem, htxt⟩
        · exact ⟨x, Or.inr hx, h⟩
      · rintro ⟨x, hx | hx, hfx, hmem, htxt⟩
        · subst hx
          exact Or.inl ⟨hmem, htxt⟩
        · exact Or.inr ⟨x, hx, hfx, hmem, htxt⟩

theorem mem_dateFilter_both (a b : Int) (es : List CalendarEvent) (e : CalendarEvent) :
    e ∈ dateFilter (some a) (some b) es ↔ e ∈ es ∧ a ≤ e.startDate ∧ e.endDate ≤ b := by
  simp [dateFilter, List.mem_filter, and_assoc]

theorem strictSearchEvents_sd_only (cs : List Cal) (txt : String) (a : Int) :
    strictSearchEvents cs txt (some a) none = strictSearchEvents cs txt none none := by
  induction cs with
  | nil => rfl
  | cons c rest ih => simp [strictSearchEvents, dateFilter, ih]

theorem strictSearchEvents_ed_only (cs : List Cal) (txt : String) (b : Int) :
    strictSearchEvents cs txt none (some b) = strictSearchEvents cs txt none none := by
  induction cs with
  | nil => rfl
  | cons c rest ih => simp [strictSearchEvents, dateFilter, ih]

/-- Modelled from the spec's words, for the refinement comparison only:
the claimed date predicate, an inclusive range that INTERSECTS the
event's own start/end interval. -/
def dateIntersects (a b : Int) (e : CalendarEvent) : Bool :=
  decide (a ≤ e.endDate) && decide (e.startDate ≤ b)

/-- An event whose interval [0,5] intersects the range [2,10] without
being contained in it. -/
def c6Event : CalendarEvent :=
  { id := "e0", title := "Standup", description := "", startDate := 0, endDate := 5,
    location := "", calendarName := "Work" }

/-- A healthy calendar world holding only `c6Event`. -/
def c6CalWorld : CalWorld := { probeOk := true, cals := [{ name := "Work", events := [c6Event] }] }

/-- C6 counterexample: `c6Event` intersects the inclusive range [2,10]
and matches the search text, the world is healthy, yet the dated find
returns no events — the code keeps only events CONTAINED in the range
(`startDate >= a` and `endDate <= b`), not events intersecting it. -/
theorem c6_counterexample :
    dateIntersects 2 10 c6Event = true ∧
    eventTextMatch "Standup" c6Event = true ∧
    c6CalWorld.probeOk = true ∧
    (∀ c ∈ c6CalWorld.cals, c.searchFails = false) ∧
    findEvents c6CalWorld "Standup" (some 2) (some 10) = .ok [] := by
  exact ⟨rfl, by decide, rfl, by decide, rfl⟩

/-- C6 amended: with both bounds supplied, the find returns the strict
search, whose per-source stage first keeps exactly the events CONTAINED
in the inclusive range (`a <= startDate` and `endDate <= b`) — a
narrowing of the candidate set — and only then applies the substring
text filter on title, description and location to those candidates. -/
theorem c6_date_filter_amended (w : CalWorld) (txt : String) (a b : Int)
    (hp : w.probeOk = true) :
    findEvents w txt (some a) (some b) =
      .ok (strictSearchEvents w.cals txt (some a) (some b)) ∧
    (∀ c : Cal, dateFilter (some a) (some b) c.events ⊆ c.events) ∧
    (∀ e, e ∈ strictSearchEvents w.cals txt (some a) (some b) ↔
      ∃ c, c ∈ w.cals ∧ c.searchFails = false ∧ e ∈ c.events ∧
        (a ≤ e.startDate ∧ e.endDate ≤ b) ∧ eventTextMatch txt e = true) := by
  refine ⟨findEvents_of_date_present w txt _ _ hp (Or.inl (by simp)), ?_, ?_⟩
  · intro c
    simp [dateFilter, List.filter_subset]
  · intro e
    rw [mem_strictSearchEvents]
    constructor
    · rintro ⟨c, hc, hfc, hmem, htxt⟩
      rw [mem_dateFilter_both] at hmem
      exact ⟨c, hc, hfc, hmem.1, hmem.2, htxt⟩
    · rintro ⟨c, hc, hfc, hmem, hrange, htxt⟩
      exact ⟨c, hc, hfc, (mem_dateFilter_both a b c.events e).mpr ⟨hmem, hrange⟩, htxt⟩

/-- An event contained in the range [2,10]. -/
def c6InEvent : CalendarEvent :=
  { id := "e1", title := "Standup", description := "", startDate := 3, endDate := 4,
    location := "", calendarName := "Work" }

/-- A healthy calendar world holding only `c6InEvent`. -/
def c6InCalWorld : CalWorld :=
  { probeOk := true, cals := [{ name := "Work", events := [c6InEvent] }] }

theorem c6_date_filter_amended_witness :
    findEvents c6InCalWorld "Standup" (some 2) (some 10) =
      .ok (strictSearchEvents c6InCalWorld.cals "Standup" (some 2) (some 10)) ∧
    (c6InEvent ∈ strictSearchEvents c6InCalWorld.cals "Standup" (some 2) (some 10) ↔
      ∃ c, c ∈ c6InCalWorld.cals ∧ c.searchFails = false ∧ c6InEvent ∈ c.events ∧
        ((2 : Int) ≤ c6InEvent.startDate ∧ c6InEvent.endDate ≤ (10 : Int)) ∧
        eventTextMatch "Standup" c6InEvent = true) := by
  have h := c6_date_filter_amended c6InCalWorld "Standup" 2 10 rfl
  exact ⟨h.1, h.2.2 c6InEvent⟩

/-- C10: when exactly one of the two date bounds is supplied, the strict
calendar search ignores it entirely: the result equals the date-free
search (every calendar's full event list, text-filtered), it does not
depend on the supplied bound, and no fallback is attempted. -/
theorem c10_single_bound_ignored (w : CalWorld) (txt : String) (a : Int)
    (hp : w.probeOk = true) :
    findEvents w txt (some a) none = .ok (strictSearchEvents w.cals txt none none) ∧
    findEvents w txt none (some a) = .ok (strictSearchEvents w.cals txt none none) ∧
    (∀ b : Int, findEvents w txt (some a) none = findEvents w txt (some b) none) ∧
    (∀ e, e ∈ strictSearchEvents w.cals txt none none ↔
      ∃ c, c ∈ w.cals ∧ c.searchFails = false ∧ e ∈ c.events ∧
        eventTextMatch txt e = true) := by
  have h1 : ∀ x : Int, findEvents w txt (some x) none =
      .ok (strictSearchEvents w.cals txt none none) := by
    intro x
    rw [findEvents_of_date_present w txt (some x) none hp (Or.inl (by simp)),
      strictSearchEvents_sd_only]
  refine ⟨h1 a, ?_, ?_, ?_⟩
  · rw [findEvents_of_date_present w txt none (some a) hp (Or.inr (by simp)),
      strictSearchEvents_ed_only]
  · intro b
    rw [h1 a, h1 b]
  · intro e
    rw [mem_strictSearchEvents]
    simp [dateFilter]

theorem c10_single_bound_ignored_witness :
    findEvents sampleCalWorld "Standup" (some 99999) none =
      .ok (strictSearchEvents sampleCalWorld.cals "Standup" none none) ∧
    findEvents sampleCalWorld "Standup" (some 99999) none =
      findEvents sampleCalWorld "Standup" (some 0) none := by
  have h := c10_single_bound_ignored sampleCalWorld "Standup" 99999 rfl
  exact ⟨h.1, h.2.2.1 0⟩

/-! ### C8 -/

theorem markReminder_none (rs : List Reminder) (rid : String)
    (h : ∀ r ∈ rs, r.id ≠ rid) : markReminder rs rid = none := by
  induction rs with
  | nil => rfl
  | cons r rest ih =>
    have hr : (r.id == rid) = false := by simp [h r (by simp)]
    simp [markReminder, hr, ih (fun x hx => h x (by simp [hx]))]

theorem markFirstById_not_found (ls : List RemList) (rid : String)
    (he : ∀ l ∈ ls, l.enumFails = false)
    (h : ∀ l ∈ ls, ∀ r ∈ l.reminders, r.id ≠ rid) :
    markFirstById ls rid = .ok (false, ls) := by
  induction ls with
  | nil => rfl
  | cons l rest ih =>
    have hl := he l (by simp)
    have hm : markReminder l.reminders rid = none := markReminder_none _ _ (h l (by simp))
    have hrest := ih (fun x hx => he x (by simp [hx])) (fun x hx => h x (by simp [hx]))
    simp only [markFirstById, hl, Bool.false_eq_true, if_false, hm, hrest]
    rfl

theorem markReminder_found (rs : List Reminder) (rid : String)
    (h : ∃ r ∈ rs, r.id = rid) : ∃ rs', markReminder rs rid = some rs' := by
  induction rs with
  | nil => simp at h
  | cons r rest ih =>
    by_cases hr : r.id == rid
    · exact ⟨{ r with isCompleted := true } :: rest, by simp [markReminder, hr]⟩
    · obtain ⟨x, hx, hid⟩ := h
      rcases List.mem_cons.mp hx with rfl | hx'
      · exact absurd hid (by simpa using hr)
      · obtain ⟨rest', hrest⟩ := ih ⟨x, hx', hid⟩
        exact ⟨r :: rest', by simp [markReminder, hr, hrest]⟩

theorem markReminder_set (rs rs' : List Reminder) (rid : String)
    (h : markReminder rs rid = some rs') :
    ∃ j r, rs.get? j = some r ∧ r.id = rid ∧
      rs' = rs.set j { r with isCompleted := true } := by
  induction rs generalizing rs' with
  | nil => simp [markReminder] at h
  | cons r rest ih =>
    by_cases hr : r.id == rid
    · simp only [markReminder, hr, if_true, Option.some.injEq] at h
      exact ⟨0, r, rfl, by simpa using hr, by rw [← h]; rfl⟩
    · simp only [markReminder, hr, Bool.false_eq_true, if_false] at h
      cases hm : markReminder rest rid with
      | none => rw [hm] at h; simp at h
      | some rest' =>
        rw [hm] at h
        simp only [Option.some.injEq] at h
        obtain ⟨j, r0, hj, hid, hset⟩ := ih rest' hm
        exact ⟨j + 1, r0, by simpa using hj, hid, by rw [← h, hset]; rfl⟩

theorem markReminder_idem (rs rs' : List Reminder) (rid : String)
    (h : markReminder rs rid = some rs') : markReminder rs' rid = some rs' := by
  induction rs generalizing rs' with
  | nil => simp [markReminder] at h
  | cons r rest ih =>
    by_cases hr : r.id == rid
    · simp only [markReminder, hr, if_true, Option.some.injEq] at h
      subst h
      have hr' : (({ r with isCompleted := true } : Reminder).id == rid) = true := hr
      simp [markReminder, hr']
    · simp only [markReminder, hr, Bool.false_eq_true, if_false] at h
      cases hm : markReminder rest rid with
      | none => rw [hm] at h; simp at h
      | some rest' =>
        rw [hm] at h
        simp only [Option.some.injEq] at h
        subst h
        simp [markReminder, hr, ih rest' hm]

theorem markFirstById_found (ls : List RemList) (rid : String)
    (he : ∀ l ∈ ls, l.enumFails = false)
    (h : ∃ l ∈ ls, ∃ r ∈ l.reminders, r.id = rid) :
    ∃ ls', markFirstById ls rid = .ok (true, ls') := by
  induction ls with
  | nil => simp at h
  | cons l rest ih =>
    have hl := he l (by simp)
    cases hm : markReminder l.reminders rid with
    | some rs' =>
      exact ⟨{ l with reminders := rs' } :: rest, by simp [markFirstById, hl, hm]⟩
    | none =>
      obtain ⟨x, hx, r, hr, hid⟩ := h
      rcases List.mem_cons.mp hx with rfl | hx'
      · obtain ⟨rs', hrs⟩ := markReminder_found x.reminders rid ⟨r, hr, hid⟩
        rw [hm] at hrs
        exact absurd hrs (by simp)
      · obtain ⟨rest', hrest⟩ := ih (fun y hy => he y (by simp [hy])) ⟨x, hx', r, hr, hid⟩
        refine ⟨l :: rest', ?_⟩
        simp only [markFirstById, hl, Bool.false_eq_true, if_false, hm, hrest]
        rfl

theorem markFirstById_set (ls ls' : List RemList) (rid : String)
    (h : markFirstById ls rid = .ok (true, ls')) :
    ∃ i l j r, ls.get? i = some l ∧ l.reminders.get? j = some r ∧ r.id = rid ∧
      ls' = ls.set i { l with reminders := l.reminders.set j { r with isCompleted := true } } := by
  induction ls generalizing ls' with
  | nil => simp [markFirstById] at h
  | cons l rest ih =>
    by_cases hl : l.enumFails
    · simp [markFirstById, hl] at h
    · simp only [markFirstById] at h
      rw [if_neg hl] at h
      cases hm : markReminder l.reminders rid with
      | some rs' =>
        rw [hm] at h
        simp only [Except.ok.injEq, Prod.mk.injEq, true_and] at h
        obtain ⟨j, r, hj, hid, hset⟩ := markReminder_set l.reminders rs' rid hm
        exact ⟨0, l, j, r, rfl, hj, hid, by rw [← h, hset]; rfl⟩
      | none =>
        rw [hm] at h
        cases hrest : markFirstById rest rid with
        | error e => rw [hrest] at h; simp [Bind.bind, Except.bind] at h
        | ok p =>
          rw [hrest] at h
          have hbind : (do
              let (found, rest') ← (Except.ok p : Except String (Bool × List RemList))
              Except.ok (found, l :: rest')) = Except.ok (p.1, l :: p.2) := rfl
          rw [hbind] at h
          simp only [Except.ok.injEq, Prod.mk.injEq] at h
          obtain ⟨hfound, hls⟩ := h
          obtain ⟨i, l0, j, r, hi, hj, hid, hset⟩ := ih p.2 (by rw [hrest, ← hfound])
          exact ⟨i + 1, l0, j, r, by simpa using hi, hj, hid, by rw [← hls, hset]; rfl⟩

theorem markFirstById_idem (ls ls' : List RemList) (rid : String)
    (h : markFirstById ls rid = .ok (true, ls')) :
    markFirstById ls' rid = .ok (true, ls') := by
  induction ls generalizing ls' with
  | nil => simp [markFirstById] at h
  | cons l rest ih =>
    by_cases hl : l.enumFails
    · simp [markFirstById, hl] at h
    · simp only [markFirstById] at h
      rw [if_neg hl] at h
      cases hm : markReminder l.reminders rid with
      | some rs' =>
        rw [hm] at h
        simp only [Except.ok.injEq, Prod.mk.injEq, true_and] at h
        subst h
        have hidem := markReminder_idem l.reminders rs' rid hm
        simp [markFirstById, hl, hidem]
      | none =>
        rw [hm] at h
        cases hrest : markFirstById rest rid with
        | error e => rw [hrest] at h; simp [Bind.bind, Except.bind] at h
        | ok p =>
          rw [hrest] at h
          have hbind : (do
              let (found, rest') ← (Except.ok p : Except String (Bool × List RemList))
              Except.ok (found, l :: rest')) = Except.ok (p.1, l :: p.2) := rfl
          rw [hbind] at h
          simp only [Except.ok.injEq, Prod.mk.injEq] at h
          obtain ⟨hfound, hls⟩ := h
          have hidem := ih p.2 (by rw [hrest, ← hfound])
          rw [← hls]
          simp only [markFirstById]
          rw [if_neg hl, hm, hidem]
          rfl

/-- A full dispatcher world with healthy reminders/calendar state and
benign external collaborators. -/
def sampleWorld : World :=
  { rem := sampleRemWorld, cal := sampleCalWorld, parseDate := fun _ => 0,
    contactsFindNumber := fun _ => .ok [], contactsGetAllNumbers := .ok [],
    contactsFindByPhone := fun _ => .ok "", notesFindNote := fun _ => .ok [],
    notesGetAllNotes := .ok [], msgSend := fun _ _ => .ok (), msgRead := fun _ _ => .ok [],
    msgSchedule := fun _ _ _ => .ok "later", msgUnread := fun _ => .ok [] }

/-- C8: completing a nonexistent id returns false (rendered by the
dispatcher as an isError result) and leaves every reminder unchanged;
completing an existing id marks exactly the first matching reminder
completed (all other state unchanged, expressed through `List.set`) and
is idempotent: a second complete on the resulting state returns true
again with no further change and no error. -/
theorem c8_complete_reminder :
    (∀ (w : RemWorld) (rid : String), w.probeOk = true →
      (∀ l ∈ w.lists, l.enumFails = false) →
      (∀ l ∈ w.lists, ∀ r ∈ l.reminders, r.id ≠ rid) →
      completeReminder w rid = (.ok false, w)) ∧
    (∀ (w : World) (rid : String), rid ≠ "" →
      (completeReminder w.rem rid).1 = .ok false →
      (handleCallTool "reminders"
          (some { operation := some (JVal.str "complete"), id := some (JVal.str rid) }) w).1 =
        textResult ("Failed to complete reminder. ID " ++ rid ++ " not found.") true) ∧
    (∀ (w : World) (rid : String), rid ≠ "" →
      (completeReminder w.rem rid).1 = .ok true →
      (handleCallTool "reminders"
          (some { operation := some (JVal.str "complete"), id := some (JVal.str rid) }) w).1 =
        textResult "Reminder marked as completed" false) ∧
    (∀ (w : RemWorld) (rid : String), w.probeOk = true →
      (∀ l ∈ w.lists, l.enumFails = false) →
      (∃ l ∈ w.lists, ∃ r ∈ l.reminders, r.id = rid) →
      ∃ w', completeReminder w rid = (.ok true, w') ∧
        ∃ i l j r, w.lists.get? i = some l ∧ l.reminders.get? j = some r ∧ r.id = rid ∧
          w'.lists = w.lists.set i
            { l with reminders := l.reminders.set j { r with isCompleted := true } }) ∧
    (∀ (w : RemWorld) (rid : String) (w' : RemWorld),
      completeReminder w rid = (.ok true, w') →
      completeReminder w' rid = (.ok true, w')) := by
  refine ⟨?_, ?_, ?_, ?_, ?_⟩
  · intro w rid hp he hnone
    obtain ⟨po, ls, di, fi⟩ := w
    subst hp
    simp [completeReminder, checkRemindersAccess,
      markFirstById_not_found ls rid he hnone]
  · intro w rid hrid hres
    have hargs : isRemindersArgs
        { operation := some (JVal.str "complete"), id := some (JVal.str rid) } = true := by
      simp [isRemindersArgs, truthy, isStringVal, hrid]
    rcases hcr : completeReminder w.rem rid with ⟨cres, rem1⟩
    rw [hcr] at hres
    simp only at hres
    subst hres
    simp [handleCallTool, dispatchCore, handleReminders, hargs, getStr, truthy, hrid, hcr]
  · intro w rid hrid hres
    have hargs : isRemindersArgs
        { operation := some (JVal.str "complete"), id := some (JVal.str rid) } = true := by
      simp [isRemindersArgs, truthy, isStringVal, hrid]
    rcases hcr : completeReminder w.rem rid with ⟨cres, rem1⟩
    rw [hcr] at hres
    simp only at hres
    subst hres
    simp [handleCallTool, dispatchCore, handleReminders, hargs, getStr, truthy, hrid, hcr]
  · intro w rid hp he hex
    obtain ⟨ls', hmark⟩ := markFirstById_found w.lists rid he hex
    refine ⟨{ w with lists := ls' }, ?_, ?_⟩
    · simp [completeReminder, checkRemindersAccess, hp, hmark]
    · obtain ⟨i, l, j, r, hi, hj, hid, hset⟩ := markFirstById_set w.lists ls' rid hmark
      exact ⟨i, l, j, r, hi, hj, hid, hset⟩
  · intro w rid w' h
    by_cases hp : w.probeOk
    · simp only [completeReminder, checkRemindersAccess, hp, if_true] at h
      cases hm : markFirstById w.lists rid with
      | error e =>
        rw [hm] at h
        simp at h
      | ok p =>
        obtain ⟨found, lists'⟩ := p
        rw [hm] at h
        simp only [Bool.not_true, Bool.false_eq_true, if_false, Prod.mk.injEq,
          Except.ok.injEq] at h
        obtain ⟨hf, hw⟩ := h
        subst hf
        subst hw
        have hidem := markFirstById_idem w.lists lists' rid hm
        simp [completeReminder, checkRemindersAccess, hp, hidem]
    · simp only [completeReminder, checkRemindersAccess, hp, if_false] at h
      simp at h

/-- A reminders world with a single uncompleted reminder with id "a1". -/
def c8World : RemWorld :=
  { probeOk := true,
    lists := [{ reminders := [{ id := "a1", title := "Call dentist", notes := "",
                                dueDate := none, isCompleted := false }] }] }

/-- The world after completing "a1". -/
def c8WorldDone : RemWorld := (completeReminder c8World "a1").2

theorem c8_complete_reminder_witness :
    completeReminder c8World "zzz" = (.ok false, c8World) ∧
    completeReminder c8WorldDone "a1" = (.ok true, c8WorldDone) ∧
    (handleCallTool "reminders"
        (some { operation := some (JVal.str "complete"), id := some (JVal.str "zzz") })
        sampleWorld).1 =
      textResult "Failed to complete reminder. ID zzz not found." true := by
  refine ⟨?_, ?_, ?_⟩
  · exact c8_complete_reminder.1 c8World "zzz" rfl (by decide) (by decide)
  · exact c8_complete_reminder.2.2.2.2 c8World "a1" c8WorldDone rfl
  · exact c8_complete_reminder.2.1 sampleWorld "zzz" (by decide) rfl

/-! ### C9 -/

theorem strictHits_set_append (ls : List RemList) (txt : String) (r : Reminder) :
    ∀ (i : Nat) (h : i < ls.length),
      (∀ l ∈ ls, ∀ x ∈ l.reminders, strictRemMatch txt x = false) →
      strictRemMatch txt r = true →
      strictHits
        (ls.set i { ls.get ⟨i, h⟩ with reminders := (ls.get ⟨i, h⟩).reminders ++ [r] }) txt
        = [r] := by
  induction ls with
  | nil =>
    intro i h
    simp at h
  | cons l rest ih =>
    intro i h hnone hr
    have hhead : l.reminders.filter (strictRemMatch txt) = [] :=
      List.filter_eq_nil_iff.mpr (fun x hx => by simp [hnone l (by simp) x hx])
    match i with
    | 0 =>
      have hrest : strictHits rest txt = [] :=
        strictHits_empty rest txt (fun x hx y hy => hnone x (by simp [hx]) y hy)
      simp [strictHits, List.filter_append, hhead, hr, hrest]
    | i + 1 =>
      have h' : i < rest.length := by simpa using h
      have hres := ih i h' (fun x hx y hy => hnone x (by simp [hx]) y hy) hr
      simp only [List.get_eq_getElem] at hres
      simp [strictHits, hhead, hres]

/-- C9: creating a reminder with a distinguishing title (no existing
reminder matches the search text) and immediately finding that text
returns exactly the one new reminder, whose title, notes and due date
equal the inputs and whose isCompleted is false. -/
theorem c9_create_find_roundtrip (w : RemWorld) (title notes txt : String) (due : Option Int)
    (hp : w.probeOk = true) (hidx : w.defaultIdx < w.lists.length)
    (hsf : ∀ l ∈ w.lists, l.searchFails = false)
    (hmatch : strIncludes title txt = true)
    (hnone : ∀ l ∈ w.lists, ∀ x ∈ l.reminders, strictRemMatch txt x = false) :
    ∃ r w', createReminder w title notes due = (.ok (some r), w') ∧
      findReminders w' txt = .ok [r] ∧
      r.title = title ∧ r.notes = notes ∧ r.dueDate = due ∧ r.isCompleted = false := by
  let r : Reminder := ⟨w.freshId, title, notes, due, false⟩
  let newl : RemList := ⟨(w.lists.get ⟨w.defaultIdx, hidx⟩).reminders ++ [r],
    (w.lists.get ⟨w.defaultIdx, hidx⟩).searchFails,
    (w.lists.get ⟨w.defaultIdx, hidx⟩).enumFails⟩
  let w' : RemWorld := ⟨w.probeOk, w.lists.set w.defaultIdx newl, w.defaultIdx, w.freshId⟩
  refine ⟨r, w', ?_, ?_, rfl, rfl, rfl, rfl⟩
  · simp [createReminder, checkRemindersAccess, hp, hidx, r, newl, w']
  · have hrmatch : strictRemMatch txt r = true := by
      simp [strictRemMatch, r, hmatch]
    have hsf' : ∀ l2 ∈ w.lists.set w.defaultIdx newl, l2.searchFails = false := by
      intro l2 hl2
      rcases List.mem_or_eq_of_mem_set hl2 with hmem | heq
      · exact hsf l2 hmem
      · rw [heq]
        show (w.lists.get ⟨w.defaultIdx, hidx⟩).searchFails = false
        exact hsf _ (w.lists.get_mem _ _)
    have hhits := strictHits_set_append w.lists txt r w.defaultIdx hidx hnone hrmatch
    have hsearch := searchAllReminders_ok _ txt hsf'
    rw [hhits] at hsearch
    exact findReminders_of_strict_ne w' txt _ hp hsearch (by simp)

/-- A healthy reminders world with one empty default list. -/
def c9World : RemWorld := { probeOk := true, lists := [{ reminders := [] }] }

theorem c9_create_find_roundtrip_witness :
    ∃ r w', createReminder c9World "Buy milk" "" none = (.ok (some r), w') ∧
      findReminders w' "milk" = .ok [r] ∧
      r.title = "Buy milk" ∧ r.notes = "" ∧ r.dueDate = none ∧ r.isCompleted = false :=
  c9_create_find_roundtrip c9World "Buy milk" "" "milk" none rfl (by decide) (by decide)
    (by decide) (by decide)

/-! ### C2 -/

/-- C2 counterexample: an argument set for calendar create supplying
every required field with the correct primitive type and `duration` a
non-negative number (zero minutes) is rejected, because the validator
tests JavaScript truthiness (`!duration`), not presence; and a missing
required field (phoneNumber for messages send) produces the generic
per-tool error text, which does not name the missing field. -/
theorem c2_counterexample :
    isCalendarArgs { operation := some (JVal.str "create"), title := some (JVal.str "Standup"),
                     startDate := some (JVal.str "2024-01-15T10:00:00Z"),
                     duration := some (JVal.num 0) } = false ∧
    (0 : Int) ≥ 0 ∧
    (handleCallTool "messages"
        (some { operation := some (JVal.str "send"), message := some (JVal.str "hello") })
        sampleWorld).1 =
      textResult "Error: Invalid arguments for messages tool" true ∧
    strIncludes "Error: Invalid arguments for messages tool" "phoneNumber" = false := by
  exact ⟨rfl, by decide, rfl, by decide⟩

/-- C2 amended: for each (domain, operation) of the required-field table,
an argument set supplying the other required fields but omitting one
required field fails validation (reported by the dispatcher as a generic
per-tool invalid-arguments error, not one naming the field), and an
argument set supplying exactly the operation and all its required fields
as truthy values of the correct primitive types (nonempty strings; a
nonzero duration) passes validation. -/
theorem c2_validation_amended
    (s p m sch ttl rid sd nm : String) (d : Int)
    (hs : s ≠ "") (hph : p ≠ "") (hm : m ≠ "") (hsch : sch ≠ "")
    (httl : ttl ≠ "") (hrid : rid ≠ "") (hsd : sd ≠ "") (hd : d ≠ 0) :
    isContactsArgs { } = true ∧
    isContactsArgs { name := some (JVal.str nm) } = true ∧
    isNotesArgs { } = true ∧
    isNotesArgs { searchText := some (JVal.str s) } = true ∧
    isMessagesArgs { operation := some (JVal.str "send"), phoneNumber := some (JVal.str p),
                     message := some (JVal.str m) } = true ∧
    isMessagesArgs { operation := some (JVal.str "send"),
                     message := some (JVal.str m) } = false ∧
    isMessagesArgs { operation := some (JVal.str "send"),
                     phoneNumber := some (JVal.str p) } = false ∧
    isMessagesArgs { operation := some (JVal.str "read"),
                     phoneNumber := some (JVal.str p) } = true ∧
    isMessagesArgs { operation := some (JVal.str "read") } = false ∧
    isMessagesArgs { operation := some (JVal.str "schedule"), phoneNumber := some (JVal.str p),
                     message := some (JVal.str m),
                     scheduledTime := some (JVal.str sch) } = true ∧
    isMessagesArgs { operation := some (JVal.str "schedule"), message := some (JVal.str m),
                     scheduledTime := some (JVal.str sch) } = false ∧
    isMessagesArgs { operation := some (JVal.str "schedule"), phoneNumber := some (JVal.str p),
                     scheduledTime := some (JVal.str sch) } = false ∧
    isMessagesArgs { operation := some (JVal.str "schedule"), phoneNumber := some (JVal.str p),
                     message := some (JVal.str m) } = false ∧
    isMessagesArgs { operation := some (JVal.str "unread") } = true ∧
    isRemindersArgs { operation := some (JVal.str "list") } = true ∧
    isRemindersArgs { operation := some (JVal.str "find"),
                      searchText := some (JVal.str s) } = true ∧
    isRemindersArgs { operation := some (JVal.str "find") } = false ∧
    isRemindersArgs { operation := some (JVal.str "create"),
                      title := some (JVal.str ttl) } = true ∧
    isRemindersArgs { operation := some (JVal.str "create") } = false ∧
    isRemindersArgs { operation := some (JVal.str "complete"),
                      id := some (JVal.str rid) } = true ∧
    isRemindersArgs { operation := some (JVal.str "complete") } = false ∧
    isCalendarArgs { operation := some (JVal.str "list") } = true ∧
    isCalendarArgs { operation := some (JVal.str "find"),
                     searchText := some (JVal.str s) } = true ∧
    isCalendarArgs { operation := some (JVal.str "find") } = false ∧
    isCalendarArgs { operation := some (JVal.str "create"), title := some (JVal.str ttl),
                     startDate := some (JVal.str sd),
                     duration := some (JVal.num d) } = true ∧
    isCalendarArgs { operation := some (JVal.str "create"), startDate := some (JVal.str sd),
                     duration := some (JVal.num d) } = false ∧
    isCalendarArgs { operation := some (JVal.str "create"), title := some (JVal.str ttl),
                     duration := some (JVal.num d) } = false ∧
    isCalendarArgs { operation := some (JVal.str "create"), title := some (JVal.str ttl),
                     startDate := some (JVal.str sd) } = false := by
  refine ⟨rfl, rfl, rfl, rfl, ?_, ?_, ?_, ?_, ?_, ?_, ?_, ?_, ?_, ?_, ?_, ?_, ?_, ?_, ?_, ?_,
    ?_, ?_, ?_, ?_, ?_, ?_, ?_, ?_⟩ <;>
  simp [isMessagesArgs, isRemindersArgs, isCalendarArgs, truthy, isStringVal, isNumberVal,
    hs, hph, hm, hsch, httl, hrid, hsd, hd]

theorem c2_validation_amended_witness :
    isMessagesArgs { operation := some (JVal.str "send"), phoneNumber := some (JVal.str "555"),
                     message := some (JVal.str "hello") } = true :=
  (c2_validation_amended "milk" "555" "hello" "2024-01-15T10:00:00Z" "Standup" "a1"
    "2024-01-15T10:00:00Z" "Ana" 30 (by decide) (by decide) (by decide) (by decide)
    (by decide) (by decide) (by decide) (by decide)).2.2.2.2.1

/-! ### C1 -/

theorem handleContacts_shape (a : RawArgs) (w : World) (res : Except String CallToolResult)
    (w' : World) (h : handleContacts a w = (res, w')) :
    (∃ e, res = .error e) ∨ ∃ t b, res = .ok (textResult t b) := by
  unfold handleContacts at h
  repeat' split at h
  all_goals
    injection h with h1 h2
  all_goals subst h1
  all_goals
    first
    | exact Or.inl ⟨_, rfl⟩
    | exact Or.inr ⟨_, _, rfl⟩

theorem handleNotes_shape (a : RawArgs) (w : World) (res : Except String CallToolResult)
    (w' : World) (h : handleNotes a w = (res, w')) :
    (∃ e, res = .error e) ∨ ∃ t b, res = .ok (textResult t b) := by
  unfold handleNotes at h
  repeat' split at h
  all_goals
    injection h with h1 h2
  all_goals subst h1
  all_goals
    first
    | exact Or.inl ⟨_, rfl⟩
    | exact Or.inr ⟨_, _, rfl⟩

theorem handleMessages_shape (a : RawArgs) (w : World) (res : Except String CallToolResult)
    (w' : World) (h : handleMessages a w = (res, w')) :
    (∃ e, res = .error e) ∨ ∃ t b, res = .ok (textResult t b) := by
  unfold handleMessages at h
  repeat' split at h
  all_goals
    injection h with h1 h2
  all_goals subst h1
  all_goals
    first
    | exact Or.inl ⟨_, rfl⟩
    | exact Or.inr ⟨_, _, rfl⟩

theorem handleReminders_shape (a : RawArgs) (w : World) (res : Except String CallToolResult)
    (w' : World) (h : handleReminders a w = (res, w')) :
    (∃ e, res = .error e) ∨ ∃ t b, res = .ok (textResult t b) := by
  unfold handleReminders at h
  repeat' split at h
  all_goals
    injection h with h1 h2
  all_goals subst h1
  all_goals
    first
    | exact Or.inl ⟨_, rfl⟩
    | exact Or.inr ⟨_, _, rfl⟩

theorem handleCalendar_shape (a : RawArgs) (w : World) (res : Except String CallToolResult)
    (w' : World) (h : handleCalendar a w = (res, w')) :
    (∃ e, res = .error e) ∨ ∃ t b, res = .ok (textResult t b) := by
  unfold handleCalendar at h
  repeat' split at h
  all_goals
    injection h with h1 h2
  all_goals subst h1
  all_goals
    first
    | exact Or.inl ⟨_, rfl⟩
    | exact Or.inr ⟨_, _, rfl⟩

theorem dispatchCore_shape (name : String) (args? : Option RawArgs) (w : World)
    (res : Except String CallToolResult) (w' : World)
    (h : dispatchCore name args? w = (res, w')) :
    (∃ e, res = .error e) ∨ ∃ t b, res = .ok (textResult t b) := by
  cases args? with
  | none =>
    simp only [dispatchCore] at h
    injection h with h1 h2
    subst h1
    exact Or.inl ⟨_, rfl⟩
  | some a =>
    simp only [dispatchCore] at h
    split at h
    · exact handleContacts_shape a w res w' h
    · split at h
      · exact handleNotes_shape a w res w' h
      · split at h
        · exact handleMessages_shape a w res w' h
        · split at h
          · exact handleReminders_shape a w res w' h
          · split at h
            · exact handleCalendar_shape a w res w' h
            · injection h with h1 h2
              subst h1
              exact Or.inr ⟨_, _, rfl⟩

theorem handleCallTool_shape (name : String) (args? : Option RawArgs) (w : World) :
    ∃ t b, (handleCallTool name args? w).1 = textResult t b := by
  rcases hsplit : dispatchCore name args? w with ⟨res, w'⟩
  rcases dispatchCore_shape name args? w res w' hsplit with ⟨e, rfl⟩ | ⟨t, b, rfl⟩
  · exact ⟨"Error: " ++ e, true, by simp [handleCallTool, hsplit]⟩
  · exact ⟨t, b, by simp [handleCallTool, hsplit]⟩

/-- C1: the call-tool handler is a total function into
`{content, isError}` results whose content is always a single text entry;
every error thrown below the boundary (validation, capability denial,
backing-store failure) is converted at the single catch into
`{content, isError: true}`; an unknown tool name, absent arguments, or an
unknown operation string for a known tool each yield `isError = true`,
never an unhandled fault. -/
theorem c1_dispatcher_failure_boundary :
    (∀ (name : String) (args? : Option RawArgs) (w : World),
      ∃ t b, (handleCallTool name args? w).1 = textResult t b) ∧
    (∀ (name : String) (args? : Option RawArgs) (w : World) (e : String) (w' : World),
      dispatchCore name args? w = (.error e, w') →
      handleCallTool name args? w = (textResult ("Error: " ++ e) true, w')) ∧
    (∀ (name : String) (args? : Option RawArgs) (w : World),
      ¬ name ∈ ["contacts", "notes", "messages", "reminders", "calendar"] →
      (handleCallTool name args? w).1.isError = true) ∧
    (∀ (name : String) (w : World), (handleCallTool name none w).1.isError = true) ∧
    (∀ (w : World) (a : RawArgs) (s : String), a.operation = some (JVal.str s) →
      ¬ s ∈ ["send", "read", "schedule", "unread"] →
      (handleCallTool "messages" (some a) w).1.isError = true) ∧
    (∀ (w : World) (a : RawArgs) (s : String), a.operation = some (JVal.str s) →
      ¬ s ∈ ["list", "find", "create", "complete"] →
      (handleCallTool "reminders" (some a) w).1.isError = true) ∧
    (∀ (w : World) (a : RawArgs) (s : String), a.operation = some (JVal.str s) →
      ¬ s ∈ ["list", "find", "create"] →
      (handleCallTool "calendar" (some a) w).1.isError = true) := by
  refine ⟨handleCallTool_shape, ?_, ?_, ?_, ?_, ?_, ?_⟩
  · intro name args? w e w' h
    simp [handleCallTool, h]
  · intro name args? w hname
    have h1 : name ≠ "contacts" := fun he => hname (by simp [he])
    have h2 : name ≠ "notes" := fun he => hname (by simp [he])
    have h3 : name ≠ "messages" := fun he => hname (by simp [he])
    have h4 : name ≠ "reminders" := fun he => hname (by simp [he])
    have h5 : name ≠ "calendar" := fun he => hname (by simp [he])
    cases args? with
    | none => simp [handleCallTool, dispatchCore, textResult]
    | some a => simp [handleCallTool, dispatchCore, textResult, h1, h2, h3, h4, h5]
  · intro name w
    simp [handleCallTool, dispatchCore, textResult]
  · intro w a s hop hmem
    have hcon : (["send", "read", "schedule", "unread"].contains s) = false := by
      simpa using hmem
    have hval : isMessagesArgs a = false := by
      simp only [isMessagesArgs, hop]
      rw [hcon]
      rfl
    simp [handleCallTool, dispatchCore, handleMessages, textResult, hval]
  · intro w a s hop hmem
    have hcon : (["list", "find", "create", "complete"].contains s) = false := by
      simpa using hmem
    have hval : isRemindersArgs a = false := by
      simp only [isRemindersArgs, hop]
      rw [hcon]
      rfl
    simp [handleCallTool, dispatchCore, handleReminders, textResult, hval]
  · intro w a s hop hmem
    have hcon : (["list", "find", "create"].contains s) = false := by
      simpa using hmem
    have hval : isCalendarArgs a = false := by
      simp only [isCalendarArgs, hop]
      rw [hcon]
      rfl
    simp [handleCallTool, dispatchCore, handleCalendar, textResult, hval]

theorem c1_dispatcher_failure_boundary_witness :
    (handleCallTool "bogus" (some {}) sampleWorld).1.isError = true ∧
    (handleCallTool "reminders" none sampleWorld).1.isError = true ∧
    (handleCallTool "messages"
        (some { operation := some (JVal.str "frobnicate") }) sampleWorld).1.isError = true ∧
    (handleCallTool "reminders"
        (some { operation := some (JVal.str "destroy") }) sampleWorld).1.isError = true ∧
    (handleCallTool "calendar"
        (some { operation := some (JVal.str "complete") }) sampleWorld).1.isError = true ∧
    handleCallTool "bogus" none sampleWorld =
      (textResult "Error: No arguments provided" true, sampleWorld) := by
  refine ⟨?_, ?_, ?_, ?_, ?_, ?_⟩
  · exact c1_dispatcher_failure_boundary.2.2.1 "bogus" (some {}) sampleWorld (by decide)
  · exact c1_dispatcher_failure_boundary.2.2.2.1 "reminders" sampleWorld
  · exact c1_dispatcher_failure_boundary.2.2.2.2.1 sampleWorld _ "frobnicate" rfl (by decide)
  · exact c1_dispatcher_failure_boundary.2.2.2.2.2.1 sampleWorld _ "destroy" rfl (by decide)
  · exact c1_dispatcher_failure_boundary.2.2.2.2.2.2 sampleWorld _ "complete" rfl (by decide)
  · exact c1_dispatcher_failure_boundary.2.1 "bogus" none sampleWorld "No arguments provided"
      sampleWorld rfl
